import Mathlib

/-
  Verification of the METAMEDAI RAG backend core against its design spec.

  Shallow embedding of the Python sources:
    src/retrieval/generator.py    (RAGGenerator._prepare_context, generate_response,
                                   generate_with_sources)
    src/retrieval/retriever.py    (HybridRetriever._initialize_retriever, retrieve)
    src/retrieval/rag_service.py  (RAGService.query, generate_only)
    src/ingestion/vector_store.py (VectorStore._initialize_pinecone)
    src/ingestion/document_processor.py (DocumentProcessor.process_text)

  Python strings are modelled as `List Char`; Python dict results as a record
  with `Option` fields (a `none` field stands for an absent or `None` entry);
  code that can raise is modelled in `Except`; the external services
  (embedding, vector index, language model) are oracles supplied in an
  environment record.
-/

namespace MetaMed

/-- Python whitespace characters stripped by `str.strip` / `str.rstrip`
(ASCII subset, which is what the repository's data uses). -/
def pySpace (c : Char) : Bool :=
  c = ' ' || c = '\t' || c = '\n' || c = '\r' || c = '\x0b' || c = '\x0c'

/-- Python `str.rstrip()`. -/
def pyRstrip (l : List Char) : List Char :=
  (l.reverse.dropWhile pySpace).reverse

/-- Python `str.strip()`. -/
def pyStrip (l : List Char) : List Char :=
  pyRstrip (l.dropWhile pySpace)

/-- A langchain `Document`: `page_content` plus a string-keyed metadata
mapping (modelled as an association list, preserving iteration order). -/
structure Doc where
  page_content : List Char
  metadata : List (List Char × List Char)
deriving DecidableEq, Repr

/-- The truncation marker `"..."` appended by the context composer. -/
def dots : List Char := ['.', '.', '.']

/-- Python `chunk.endswith("...")`. -/
def endsWithDots (c : List Char) : Bool :=
  decide (3 ≤ c.length) && (c.drop (c.length - 3) == dots)

/-- Global context cap of `RAGGenerator._prepare_context`
(`max_total_chars = 4000`). -/
def maxTotalChars : Nat := 4000

/-- Per-document cap of `RAGGenerator._prepare_context` (`per_doc_max = 1200`). -/
def perDocMax : Nat := 1200

/-- The per-document content preparation in `_prepare_context`:
`content = (doc.page_content or "").strip()`, truncated to `per_doc_max`
with `"..."` appended when it exceeds the per-document cap. -/
def perDocContent (pc : List Char) : List Char :=
  if perDocMax < (pyStrip pc).length then (pyStrip pc).take perDocMax ++ dots
  else pyStrip pc

/-- The `metadata_str` computation in `_prepare_context`: skipped when the
metadata mapping is empty (falsy), otherwise renders all entries whose key is
neither `source` nor `file_name` as `"key: value"` joined by `", "`, wrapped
in `" (Metadata: ...)"`; empty when every key was excluded. -/
def metadataStr (md : List (List Char × List Char)) : List Char :=
  if md = [] then []
  else
    let parts := (md.filter fun kv =>
        !(kv.1 == "source".data) && !(kv.1 == "file_name".data)).map
      fun kv => kv.1 ++ ": ".data ++ kv.2
    if parts = [] then []
    else " (Metadata: ".data ++ List.intercalate ", ".data parts ++ ")".data

/-- The untrimmed rendering `f"Document {i}{metadata_str}:\n{content}\n"`
of the `i`-th document (1-based) in `_prepare_context`. -/
def renderDoc (i : Nat) (d : Doc) : List Char :=
  "Document ".data ++ (Nat.repr i).data ++ metadataStr d.metadata
    ++ ":\n".data ++ perDocContent d.page_content ++ "\n".data

/-- The cap-boundary trimming in `_prepare_context`: when the rendered chunk
exceeds `remaining = max_total_chars - used` it is cut to `remaining`
characters and, unless the cut already ends in `"..."`, right-stripped with
`"..."` appended.  (Natural subtraction matches Python's `max(0, remaining)`.) -/
def trimChunk (chunk : List Char) (remaining : Nat) : List Char :=
  if remaining < chunk.length then
    if endsWithDots (chunk.take remaining) then chunk.take remaining
    else pyRstrip (chunk.take remaining) ++ dots
  else chunk

/-- The document loop of `_prepare_context`: `i` is the 1-based index,
`used` the running character total; the loop stops once `used` reaches
`max_total_chars`. -/
def composeLoop : List Doc → Nat → Nat → List (List Char)
  | [], _, _ => []
  | d :: rest, i, used =>
    if maxTotalChars ≤ used then []
    else
      trimChunk (renderDoc i d) (maxTotalChars - used) ::
        composeLoop rest (i + 1)
          (used + (trimChunk (renderDoc i d) (maxTotalChars - used)).length)

/-- Python `"\n".join(parts)`. -/
def joinNL : List (List Char) → List Char
  | [] => []
  | [p] => p
  | p :: q :: rest => p ++ '\n' :: joinNL (q :: rest)

/-- Sum of the lengths of a list of strings (the final value of `used`
up to trimming). -/
def sumLen (ps : List (List Char)) : Nat := (ps.map List.length).sum

/-- `RAGGenerator._prepare_context`: the Context Composer.  Empty input
yields the fixed sentinel; otherwise the documents are rendered in input
order under the global and per-document caps and joined with newlines. -/
def prepareContext (docs : List Doc) : List Char :=
  if docs = [] then "No relevant context found.".data
  else joinNL (composeLoop docs 1 0)

/-- A concrete document for exercising the composer at the cap: 987 content
characters render to a 1000-character block (`"Document i:\n" ++ content ++ "\n"`). -/
def exDocC1 : Doc := ⟨List.replicate 987 'x', []⟩

/-- A raised Python exception, carrying its `str(e)` message. -/
structure Err where
  msg : List Char
deriving DecidableEq, Repr

/- ===================== HybridRetriever (src/retrieval/retriever.py) ===== -/

/-- Which of `HybridRetriever`'s per-instance strategy handles are non-`None`
after initialization (`self.retriever` / `self.vectorstore`). -/
structure RState where
  retrieverSome : Bool
  vectorstoreSome : Bool
deriving DecidableEq, Repr

/-- One external search invocation issued by `retrieve`, recording the
parameters the code passes to it. -/
inductive RCall where
  | hybrid
  | mmr (topK fetchK : Nat)
  | sim (topK : Nat)
  | reinit
deriving DecidableEq, Repr

/-- Environment of `HybridRetriever`: the startup capability flag
`HAS_HYBRID`, whether `_initialize_retriever`'s client construction raises,
and the outcomes of the three external search strategies
(`get_relevant_documents`, `max_marginal_relevance_search`,
`similarity_search`), each of which may return documents or raise. -/
structure REnv where
  hasHybrid : Bool
  initRaises : Bool
  initErr : Err
  hybridRes : Except Err (List Doc)
  mmrRes : Except Err (List Doc)
  simRes : Except Err (List Doc)

/-- `HybridRetriever._initialize_retriever`: constructs the clients (which may
raise) and then installs exactly one strategy handle according to
`HAS_HYBRID` — the hybrid retriever when the capability is present, the dense
vectorstore otherwise. -/
def initializeRetriever (env : REnv) : Except Err RState :=
  if env.initRaises then .error env.initErr
  else .ok ⟨env.hasHybrid, !env.hasHybrid⟩

/-- Whether an `Except` outcome is a normal return. -/
def isOkB : Except Err (List Doc) → Bool
  | .ok _ => true
  | .error _ => false

/-- `HybridRetriever.retrieve`, with an explicit fuel bound on the
reinitialize-and-retry recursion of the final fallback branch (`none` models
non-termination within the given fuel).  The try-block body produces either
documents or a raised error, plus the trace of strategy calls issued; the
surrounding `except` turns any raised error into the empty document list. -/
def retrieveAux : Nat → REnv → RState → Nat → Rat → Nat →
    Option (List Doc × List RCall)
  | 0, _, _, _, _, _ => none
  | fuel + 1, env, st, topK, alpha, fetchK =>
    let tryRes : Option (Except Err (List Doc) × List RCall) :=
      if env.hasHybrid && st.retrieverSome then
        some (env.hybridRes, [RCall.hybrid])
      else if st.vectorstoreSome then
        some (match env.mmrRes with
          | .ok ds => (.ok ds, [RCall.mmr topK fetchK])
          | .error _ => (env.simRes, [RCall.mmr topK fetchK, RCall.sim topK]))
      else
        match initializeRetriever env with
        | .error e => some (.error e, [RCall.reinit])
        | .ok st2 =>
          (retrieveAux fuel env st2 topK alpha fetchK).map
            (fun r => (.ok r.1, RCall.reinit :: r.2))
    tryRes.map (fun r => ((match r.1 with | .ok ds => ds | .error _ => []), r.2))

/-- `retrieve` with the fuel (2) that provably suffices: the fallback branch
reinitializes once and retries once. -/
def retrieveTotal (env : REnv) (st : RState) (topK : Nat) (alpha : Rat)
    (fetchK : Nat) : List Doc × List RCall :=
  (retrieveAux 2 env st topK alpha fetchK).getD ([], [])

/-- All retrieval strategies fail: each external search raises. -/
abbrev allFail (env : REnv) : Prop :=
  isOkB env.hybridRes = false ∧ isOkB env.mmrRes = false ∧ isOkB env.simRes = false

/- ===================== RAGGenerator (src/retrieval/generator.py) ======== -/

/-- Result status tag of the pipeline's dict-shaped results. -/
inductive RStatus where
  | success
  | warning
  | error
deriving DecidableEq, Repr

/-- A source record attached by `generate_with_sources`: content preview
truncated to 200 characters plus full metadata. -/
structure SourceInfo where
  content : List Char
  metadata : List (List Char × List Char)
deriving DecidableEq, Repr

/-- A dict-shaped result of the pipeline.  A `none` field models a key that
is absent (or mapped to Python `None`); `nspace` models the `"namespace"`
key. -/
structure RDict where
  status : RStatus
  message : Option (List Char) := none
  answer : Option (List Char) := none
  context_used : Option Nat := none
  question : Option (List Char) := none
  sources : Option (List SourceInfo) := none
  retrieved_docs_count : Option Nat := none
  search_alpha : Option Rat := none
  nspace : Option (List Char) := none
  context_provided : Option Bool := none
deriving DecidableEq

/-- Environment of `RAGGenerator`: the prompt-plus-model chain as an oracle
taking the optional custom template, the composed context and the question
(the two slots the code fills in), returning the model answer or raising.
A malformed custom template raising in `from_template` is subsumed by the
error outcome. -/
structure GenEnv where
  llm : Option (List Char) → List Char → List Char → Except Err (List Char)

/-- `RAGGenerator.generate_response`: composes the context, invokes the chain
inside a try/except, and packages the outcome as a tagged dict — success with
the answer and the count of input documents, or error with the message,
`answer = None` and `context_used = 0`. -/
def generateResponse (env : GenEnv) (question : List Char) (docs : List Doc)
    (customPrompt : Option (List Char)) : RDict :=
  match env.llm customPrompt (prepareContext docs) question with
  | .ok ans =>
    { status := .success, answer := some ans,
      context_used := some docs.length, question := some question }
  | .error e =>
    { status := .error, message := some e.msg, answer := none,
      context_used := some 0, question := some question }

/-- The 200-character source preview of `generate_with_sources`. -/
def sourceOf (d : Doc) : SourceInfo :=
  { content := if 200 < d.page_content.length then d.page_content.take 200 ++ dots
               else d.page_content,
    metadata := d.metadata }

/-- `RAGGenerator.generate_with_sources`: decorates a successful
`generate_response` result with per-document source records. -/
def generateWithSources (env : GenEnv) (question : List Char) (docs : List Doc)
    (customPrompt : Option (List Char)) : RDict :=
  let r := generateResponse env question docs customPrompt
  if r.status = RStatus.success then { r with sources := some (docs.map sourceOf) }
  else r

/- ===================== RAGService (src/retrieval/rag_service.py) ======== -/

/-- A `RAGService` instance: its namespace and the retriever's strategy
state. -/
structure Service where
  nspace : List Char
  rstate : RState

/-- The canned answer of the zero-documents short-circuit in
`RAGService.query` (built without a literal apostrophe character in source). -/
def cannedNoInfo : List Char :=
  "I couldn".data ++ [Char.ofNat 39]
    ++ "t find any relevant information to answer your question.".data

/-- The whole zero-documents short-circuit result of `RAGService.query`. -/
def warningDict : RDict :=
  { status := .warning, message := some "No relevant documents found".data,
    answer := some cannedNoInfo, context_used := some 0, sources := some [] }

/-- `RAGService.query`: retrieve (with the default `fetch_k = 20`); on zero
documents short-circuit to the canned warning result; otherwise generate
(with or without sources) and annotate the result with the retrieved count,
the alpha used and the namespace. -/
def queryRAG (renv : REnv) (genv : GenEnv) (svc : Service) (question : List Char)
    (topK : Nat) (alpha : Rat) (includeSources : Bool)
    (customPrompt : Option (List Char)) : RDict :=
  let docs := (retrieveTotal renv svc.rstate topK alpha 20).1
  if docs.isEmpty then warningDict
  else
    let r := if includeSources then generateWithSources genv question docs customPrompt
             else generateResponse genv question docs customPrompt
    { r with retrieved_docs_count := some docs.length,
             search_alpha := some alpha, nspace := some svc.nspace }

/-- `RAGService.generate_only`: wraps the supplied context text in a single
metadata-free document, generates, and marks the result as
externally-contexted. -/
def generateOnly (genv : GenEnv) (question : List Char) (contextText : List Char)
    (customPrompt : Option (List Char)) : RDict :=
  let r := generateResponse genv question [⟨contextText, []⟩] customPrompt
  { r with context_provided := some true }

/- ===================== VectorStore (src/ingestion/vector_store.py) ====== -/

/-- The configuration fields `_initialize_pinecone` reads; an empty string
models an unset (`None`) or empty — i.e. falsy — value. -/
structure PCConfig where
  indexName : List Char
  embModel : List Char
  cloud : List Char
  region : List Char
deriving DecidableEq, Repr

/-- The arguments of a `create_index` call issued by `_initialize_pinecone`. -/
structure IndexSpec where
  name : List Char
  dimension : Nat
  metric : List Char
  cloud : List Char
  region : List Char
deriving DecidableEq, Repr

/-- Outcome of `_initialize_pinecone`: the `create_index` call issued (if
any) and the index handle obtained. -/
structure PCState where
  created : Option IndexSpec
  index : List Char
deriving DecidableEq, Repr

/-- Whether the first list is a leading segment of the second. -/
def startsWith : List Char → List Char → Bool
  | [], _ => true
  | _ :: _, [] => false
  | p :: ps, c :: cs => p == c && startsWith ps cs

/-- Python's substring test `pat in s`. -/
def containsSeq (pat : List Char) : List Char → Bool
  | [] => pat == []
  | c :: rest => startsWith pat (c :: rest) || containsSeq pat rest

/-- The embedding dimension derivation in `_initialize_pinecone`:
1536 when the embedding model identifier contains `"3-small"`, else 3072. -/
def embedDim (model : List Char) : Nat :=
  if containsSeq "3-small".data model then 1536 else 3072

/-- The configuration error raised when an index must be created but
cloud/region is not resolvable. -/
def cloudRegionErrMsg : List Char :=
  ("Pinecone cloud/region not configured. Set PINECONE_CLOUD and "
    ++ "PINECONE_REGION in .env or provide legacy PINECONE_ENVIRONMENT "
    ++ "that can be parsed.").data

/-- `VectorStore._initialize_pinecone`: derives the dimension from the
embedding model identifier, creates the index only when its name is not
among the existing indexes, and raises a `ValueError` when creation is
needed but cloud or region is falsy. -/
def initializePinecone (cfg : PCConfig) (existing : List (List Char)) :
    Except Err PCState :=
  if cfg.indexName ∈ existing then .ok ⟨none, cfg.indexName⟩
  else if cfg.cloud = [] ∨ cfg.region = [] then .error ⟨cloudRegionErrMsg⟩
  else .ok ⟨some ⟨cfg.indexName, embedDim cfg.embModel, "cosine".data,
                  cfg.cloud, cfg.region⟩, cfg.indexName⟩

/- ============ Chunker (src/ingestion/document_processor.py) ============= -/

/-- Fuel-indexed character-window splitting; the fuel `text.length + 1` used
by `splitText` provably suffices when `chunk_overlap < chunk_size`. -/
def splitWindow : Nat → List Char → Nat → Nat → List (List Char)
  | 0, _, _, _ => []
  | fuel + 1, text, chunkSize, chunkOverlap =>
    if text.length ≤ chunkSize then [text]
    else text.take chunkSize ::
      splitWindow fuel (text.drop (chunkSize - chunkOverlap)) chunkSize chunkOverlap

/-- Modelled from the spec: the text splitter used by
`DocumentProcessor.process_text` (`RecursiveCharacterTextSplitter` of the
`langchain_text_splitters` dependency) is not part of this repository.
Per §4.1 it subdivides on layered separators down to hard character cuts
until every chunk is at most `chunk_size` long, with adjacent chunks
overlapping by `chunk_overlap` characters; modelled here as the hard-cut
tier: windows of `chunk_size` characters advancing by
`chunk_size - chunk_overlap`. -/
def splitText (text : List Char) (chunkSize chunkOverlap : Nat) : List (List Char) :=
  splitWindow (text.length + 1) text chunkSize chunkOverlap

/-- `DocumentProcessor.process_text`: wraps the text in a document and
splits it into chunks, copying the metadata onto every chunk. -/
def processText (chunkSize chunkOverlap : Nat) (text : List Char)
    (md : List (List Char × List Char)) : List Doc :=
  (splitText text chunkSize chunkOverlap).map fun c => ⟨c, md⟩

/- ============ Concrete instances used to evaluate the theorems ========== -/

/-- A dense-only deployment whose MMR search raises and whose similarity
search returns no documents. -/
def envDense : REnv :=
  { hasHybrid := false, initRaises := false, initErr := ⟨[]⟩,
    hybridRes := .error ⟨"hybrid unavailable".data⟩,
    mmrRes := .error ⟨"mmr failed".data⟩, simRes := .ok [] }

/-- A deployment in which every retrieval strategy raises. -/
def envAllFail : REnv :=
  { hasHybrid := false, initRaises := false, initErr := ⟨[]⟩,
    hybridRes := .error ⟨"hybrid failed".data⟩,
    mmrRes := .error ⟨"mmr failed".data⟩,
    simRes := .error ⟨"similarity failed".data⟩ }

/-- A hybrid-capable deployment whose strategies succeed with no documents. -/
def envHyb : REnv :=
  { hasHybrid := true, initRaises := false, initErr := ⟨[]⟩,
    hybridRes := .ok [], mmrRes := .ok [], simRes := .ok [] }

/-- A dense-only deployment whose MMR search returns one document. -/
def envOneDoc : REnv :=
  { hasHybrid := false, initRaises := false, initErr := ⟨[]⟩,
    hybridRes := .error ⟨[]⟩,
    mmrRes := .ok [⟨"hello".data, []⟩], simRes := .error ⟨[]⟩ }

/-- A configuration with a resolvable cloud/region and the small embedding
model. -/
def cfgNew : PCConfig :=
  ⟨"rag-index".data, "text-embedding-3-small".data, "aws".data,
   "us-east-1".data⟩

/-- A generator environment whose model call always raises. -/
def genEnvErr : GenEnv := ⟨fun _ _ _ => .error ⟨"model call failed".data⟩⟩

/-- A generator environment whose model call always answers `"ok"`. -/
def genEnvOk : GenEnv := ⟨fun _ _ _ => .ok "ok".data⟩

/- ======================= Helper lemmas ================================== -/

theorem length_dropWhile_le (p : Char → Bool) (l : List Char) :
    (l.dropWhile p).length ≤ l.length := by
  induction l with
  | nil => simp [List.dropWhile]
  | cons a l ih =>
    rw [List.dropWhile_cons]
    split
    · simp only [List.length_cons]; omega
    · exact Nat.le_refl _

theorem pyRstrip_length_le (l : List Char) : (pyRstrip l).length ≤ l.length := by
  unfold pyRstrip
  rw [List.length_reverse]
  simpa using length_dropWhile_le pySpace l.reverse

theorem trimChunk_length_le (c : List Char) (r : Nat) :
    (trimChunk c r).length ≤ r + 3 := by
  unfold trimChunk
  split
  · split
    · have := List.length_take_le r c
      omega
    · rw [List.length_append]
      have h1 := pyRstrip_length_le (c.take r)
      have h2 := List.length_take_le r c
      have h3 : dots.length = 3 := rfl
      omega
  · next h => omega

theorem composeLoop_cons (d : Doc) (rest : List Doc) (i used : Nat)
    (h : used < maxTotalChars) :
    composeLoop (d :: rest) i used =
      trimChunk (renderDoc i d) (maxTotalChars - used) ::
        composeLoop rest (i + 1)
          (used + (trimChunk (renderDoc i d) (maxTotalChars - used)).length) := by
  simp only [composeLoop]
  rw [if_neg (by omega)]

theorem composeLoop_used_le (docs : List Doc) :
    ∀ i used, used ≤ maxTotalChars + 3 →
      used + sumLen (composeLoop docs i used) ≤ maxTotalChars + 3 := by
  induction docs with
  | nil => intro i used h; simpa [composeLoop, sumLen] using h
  | cons d rest ih =>
    intro i used h
    by_cases hu : maxTotalChars ≤ used
    · simpa [composeLoop, hu, sumLen] using h
    · rw [composeLoop_cons d rest i used (by omega)]
      have hs : sumLen (trimChunk (renderDoc i d) (maxTotalChars - used) ::
          composeLoop rest (i + 1)
            (used + (trimChunk (renderDoc i d) (maxTotalChars - used)).length)) =
          (trimChunk (renderDoc i d) (maxTotalChars - used)).length +
          sumLen (composeLoop rest (i + 1)
            (used + (trimChunk (renderDoc i d) (maxTotalChars - used)).length)) := by
        simp [sumLen]
      rw [hs]
      have htc := trimChunk_length_le (renderDoc i d) (maxTotalChars - used)
      have hnext := ih (i + 1)
        (used + (trimChunk (renderDoc i d) (maxTotalChars - used)).length) (by omega)
      omega

theorem composeLoop_length_le (docs : List Doc) :
    ∀ i used, (composeLoop docs i used).length ≤ docs.length := by
  induction docs with
  | nil => intro i used; simp [composeLoop]
  | cons d rest ih =>
    intro i used
    by_cases hu : maxTotalChars ≤ used
    · simp [composeLoop, hu]
    · rw [composeLoop_cons d rest i used (by omega)]
      simp only [List.length_cons]
      have := ih (i + 1)
        (used + (trimChunk (renderDoc i d) (maxTotalChars - used)).length)
      omega

theorem joinNL_length (ps : List (List Char)) (h : ps ≠ []) :
    (joinNL ps).length + 1 ≤ sumLen ps + ps.length := by
  induction ps with
  | nil => exact absurd rfl h
  | cons p tail ih =>
    cases tail with
    | nil => simp [joinNL, sumLen]
    | cons q rest =>
      have iht := ih (by simp)
      simp only [joinNL, List.length_append, List.length_cons, sumLen,
        List.map_cons, List.sum_cons] at *
      omega

theorem endsWithDots_append_dots (x : List Char) :
    endsWithDots (x ++ dots) = true := by
  unfold endsWithDots
  rw [List.length_append]
  rw [show dots.length = 3 from rfl]
  rw [Nat.add_sub_cancel]
  rw [List.drop_left]
  simp [Nat.le_add_left]

theorem pySpace_x : pySpace 'x' = false := by decide

theorem dropWhile_replicate_x (n : Nat) :
    List.dropWhile pySpace (List.replicate n 'x') = List.replicate n 'x' := by
  cases n with
  | zero => rfl
  | succ m =>
    rw [List.replicate_succ]
    rw [List.dropWhile_cons_of_neg (by decide)]

theorem pyStrip_replicate_x (n : Nat) :
    pyStrip (List.replicate n 'x') = List.replicate n 'x' := by
  unfold pyStrip pyRstrip
  rw [dropWhile_replicate_x, List.reverse_replicate, dropWhile_replicate_x,
    List.reverse_replicate]

theorem perDocContent_replicate :
    perDocContent (List.replicate 987 'x') = List.replicate 987 'x' := by
  unfold perDocContent
  rw [pyStrip_replicate_x]
  rw [if_neg (by rw [List.length_replicate]; decide)]

theorem renderDoc_ex_len (i : Nat) (h : (Nat.repr i).data.length = 1) :
    (renderDoc i exDocC1).length = 1000 := by
  have hmd : metadataStr exDocC1.metadata = [] := rfl
  have hpd : perDocContent exDocC1.page_content = List.replicate 987 'x' := by
    show perDocContent (List.replicate 987 'x') = _
    exact perDocContent_replicate
  unfold renderDoc
  rw [hmd, hpd]
  have h9 : ("Document ".data).length = 9 := rfl
  have hc : ((":\n").data).length = 2 := rfl
  have hn : (("\n").data).length = 1 := rfl
  simp only [List.length_append, h9, hc, hn, h, List.length_replicate,
    List.length_nil]

theorem trimChunk_noop (c : List Char) (r : Nat) (h : c.length ≤ r) :
    trimChunk c r = c := by
  unfold trimChunk
  rw [if_neg (by omega)]

theorem composeLoop_ex :
    composeLoop [exDocC1, exDocC1, exDocC1, exDocC1] 1 0 =
      [renderDoc 1 exDocC1, renderDoc 2 exDocC1,
       renderDoc 3 exDocC1, renderDoc 4 exDocC1] := by
  have e1 : (Nat.repr 1).data.length = 1 := rfl
  have e2 : (Nat.repr 2).data.length = 1 := rfl
  have e3 : (Nat.repr 3).data.length = 1 := rfl
  have e4 : (Nat.repr 4).data.length = 1 := rfl
  have l1 := renderDoc_ex_len 1 e1
  have l2 := renderDoc_ex_len 2 e2
  have l3 := renderDoc_ex_len 3 e3
  have l4 := renderDoc_ex_len 4 e4
  rw [composeLoop_cons _ _ _ _ (by decide),
    trimChunk_noop _ _ (by rw [l1]; decide), l1]
  norm_num
  rw [composeLoop_cons _ _ _ _ (by decide),
    trimChunk_noop _ _ (by rw [l2]; decide), l2]
  norm_num
  rw [composeLoop_cons _ _ _ _ (by decide),
    trimChunk_noop _ _ (by rw [l3]; decide), l3]
  norm_num
  rw [composeLoop_cons _ _ _ _ (by decide),
    trimChunk_noop _ _ (by rw [l4]; decide), l4]
  simp [composeLoop]

theorem splitWindow_chunk_le (chunkSize chunkOverlap : Nat) :
    ∀ fuel text, ∀ c ∈ splitWindow fuel text chunkSize chunkOverlap,
      c.length ≤ chunkSize := by
  intro fuel
  induction fuel with
  | zero => intro text c hc; simp [splitWindow] at hc
  | succ m ih =>
    intro text c hc
    simp only [splitWindow] at hc
    by_cases h : text.length ≤ chunkSize
    · rw [if_pos h] at hc
      simp at hc
      subst hc
      exact h
    · rw [if_neg h] at hc
      rcases List.mem_cons.mp hc with hc1 | hc2
      · subst hc1
        exact List.length_take_le _ _
      · exact ih _ c hc2

theorem splitWindow_chain (chunkSize chunkOverlap : Nat)
    (hco : chunkOverlap < chunkSize) :
    ∀ fuel text,
      List.Chain' (fun a b =>
          a.drop (chunkSize - chunkOverlap) = b.take chunkOverlap ∧
          (a.drop (chunkSize - chunkOverlap)).length = chunkOverlap)
        (splitWindow fuel text chunkSize chunkOverlap) := by
  intro fuel
  induction fuel with
  | zero => intro text; simp [splitWindow]
  | succ m ih =>
    intro text
    simp only [splitWindow]
    split
    · exact List.chain'_singleton _
    · next h =>
      rw [List.chain'_cons']
      refine ⟨?_, ih _⟩
      intro y hy
      have hlen : (List.take chunkSize text).length = chunkSize := by
        rw [List.length_take, Nat.min_eq_left (by omega)]
      have hdrop : (List.take chunkSize text).drop (chunkSize - chunkOverlap) =
          (text.drop (chunkSize - chunkOverlap)).take chunkOverlap := by
        rw [List.drop_take]
        rw [show chunkSize - (chunkSize - chunkOverlap) = chunkOverlap from by omega]
      have hdlen : ((List.take chunkSize text).drop
          (chunkSize - chunkOverlap)).length = chunkOverlap := by
        rw [List.length_drop, hlen]
        omega
      cases m with
      | zero => simp [splitWindow] at hy
      | succ m2 =>
        simp only [splitWindow] at hy
        split at hy
        · simp at hy
          subst hy
          exact ⟨hdrop, hdlen⟩
        · simp at hy
          subst hy
          refine ⟨?_, hdlen⟩
          rw [hdrop, List.take_take, Nat.min_eq_left (by omega)]

/- ======================= Claim theorems ================================= -/

/-- C1 (corrected).  The claim that the composed context string never
exceeds `max_total_chars = 4000` characters is false: the truncation marker
is appended after cutting to the remaining budget, and the final
`"\n".join` inserts separators that the running total does not count, so
the result can reach `max_total_chars + 2 + (number of documents)`
characters — that bound holds for every document sequence.  Composition
does stop adding documents once the running total reaches the cap, and a
chunk trimmed at the cap boundary always ends in the truncation marker. -/
theorem C1_composed_context_bounded (docs : List Doc) :
    (prepareContext docs).length ≤ maxTotalChars + 2 + docs.length ∧
    (∀ (ds : List Doc) (i used : Nat), maxTotalChars ≤ used →
      composeLoop ds i used = []) ∧
    (∀ (c : List Char) (r : Nat), r < c.length →
      endsWithDots (trimChunk c r) = true) := by
  refine ⟨?_, ?_, ?_⟩
  · by_cases hd : docs = []
    · subst hd; decide
    · unfold prepareContext
      rw [if_neg hd]
      by_cases hp : composeLoop docs 1 0 = []
      · rw [hp]; simp [joinNL]
      · have h1 := joinNL_length _ hp
        have h2 := composeLoop_used_le docs 1 0 (by omega)
        have h3 := composeLoop_length_le docs 1 0
        omega
  · intro ds i used h
    cases ds with
    | nil => rfl
    | cons d rest => simp [composeLoop, h]
  · intro c r h
    unfold trimChunk
    rw [if_pos h]
    split
    · next h2 => exact h2
    · exact endsWithDots_append_dots _

/-- Witness for C1: the bound, the stop condition and the truncation marker
evaluated at concrete inputs. -/
theorem C1_composed_context_bounded_witness :
    (prepareContext [exDocC1]).length ≤ maxTotalChars + 2 + [exDocC1].length ∧
    composeLoop [exDocC1] 1 maxTotalChars = [] ∧
    endsWithDots (trimChunk "ab".data 1) = true :=
  ⟨(C1_composed_context_bounded [exDocC1]).1,
   (C1_composed_context_bounded [exDocC1]).2.1 [exDocC1] 1 maxTotalChars
     (Nat.le_refl _),
   (C1_composed_context_bounded [exDocC1]).2.2 "ab".data 1 (by decide)⟩

/-- Counterexample for C1 as stated: four documents of 987 content
characters each render to four 1000-character blocks; the running total
stops exactly at the 4000-character cap, but the three `"\n".join`
separators push the final context string to 4003 characters. -/
theorem C1_counterexample :
    4000 < (prepareContext [exDocC1, exDocC1, exDocC1, exDocC1]).length := by
  have e1 : (Nat.repr 1).data.length = 1 := rfl
  have e2 : (Nat.repr 2).data.length = 1 := rfl
  have e3 : (Nat.repr 3).data.length = 1 := rfl
  have e4 : (Nat.repr 4).data.length = 1 := rfl
  unfold prepareContext
  rw [if_neg (by simp), composeLoop_ex]
  simp only [joinNL, List.length_append, List.length_cons]
  rw [renderDoc_ex_len 1 e1, renderDoc_ex_len 2 e2, renderDoc_ex_len 3 e3,
    renderDoc_ex_len 4 e4]
  norm_num

/-- C2 (confirmed): `HybridRetriever.retrieve` never propagates an
exception: with fuel 2 (which suffices, see the termination theorem) the
call always returns a document list — the catch-all absorbs every raised
error — and when all retrieval strategies fail the returned list is
empty. -/
theorem C2_retrieve_never_raises (env : REnv) (st : RState) (topK : Nat)
    (alpha : Rat) (fetchK : Nat) :
    (retrieveAux 2 env st topK alpha fetchK).isSome = true ∧
    (allFail env → (retrieveTotal env st topK alpha fetchK).1 = []) := by
  obtain ⟨hh, ir, ie, hr, mr, sr⟩ := env
  obtain ⟨rs, vs⟩ := st
  cases hh <;> cases ir <;> cases rs <;> cases vs <;> cases hr <;> cases mr <;>
    cases sr <;>
    simp [retrieveAux, retrieveTotal, initializeRetriever, allFail, isOkB]

/-- Witness for C2: in a deployment where every strategy raises, `retrieve`
returns (rather than raising) the empty document list. -/
theorem C2_retrieve_never_raises_witness :
    allFail envAllFail ∧
    (retrieveTotal envAllFail ⟨false, false⟩ 5 0 20).1 = [] :=
  ⟨by decide,
   (C2_retrieve_never_raises envAllFail ⟨false, false⟩ 5 0 20).2 (by decide)⟩

/-- C7 (confirmed): when the hybrid capability is absent, `retrieve` never
issues a hybrid call regardless of `alpha`, and in the dense state (the
vectorstore handle present) it attempts MMR search with `(top_k, fetch_k)`
first, falling back to plain similarity search for the same `top_k` when
the MMR search raises (and degrading to the empty list when both raise). -/
theorem C7_dense_only (env : REnv) (st : RState) (topK : Nat) (alpha : Rat)
    (fetchK : Nat) (hhyb : env.hasHybrid = false) :
    (∀ ds tr, retrieveAux 2 env st topK alpha fetchK = some (ds, tr) →
      RCall.hybrid ∉ tr) ∧
    (st.vectorstoreSome = true →
      retrieveAux 2 env st topK alpha fetchK =
        some (match env.mmrRes with
          | .ok ds => (ds, [RCall.mmr topK fetchK])
          | .error _ =>
            ((match env.simRes with | .ok ds => ds | .error _ => []),
             [RCall.mmr topK fetchK, RCall.sim topK]))) := by
  obtain ⟨hh, ir, ie, hr, mr, sr⟩ := env
  obtain ⟨rs, vs⟩ := st
  simp only [REnv.hasHybrid] at hhyb
  subst hhyb
  constructor
  · intro ds tr hret
    cases ir <;> cases rs <;> cases vs <;> cases mr <;> cases sr <;>
      simp [retrieveAux, initializeRetriever] at hret <;>
      simp [← hret.2]
  · intro hvs
    simp only [RState.vectorstoreSome] at hvs
    subst hvs
    cases mr <;> cases sr <;> simp [retrieveAux]

/-- Witness for C7: a dense-only deployment whose MMR search raises falls
back to similarity search with the same `top_k`, and no hybrid call
appears in the trace. -/
theorem C7_dense_only_witness :
    RCall.hybrid ∉ [RCall.mmr 5 20, RCall.sim 5] ∧
    retrieveAux 2 envDense ⟨false, true⟩ 5 0 20 =
      some ([], [RCall.mmr 5 20, RCall.sim 5]) :=
  ⟨(C7_dense_only envDense ⟨false, true⟩ 5 0 20 rfl).1 []
      [RCall.mmr 5 20, RCall.sim 5] (by decide),
   (C7_dense_only envDense ⟨false, true⟩ 5 0 20 rfl).2 rfl⟩

/-- C10 (confirmed): after `_initialize_retriever` returns normally exactly
one of the two strategy handles is set — the hybrid retriever exactly when
`HAS_HYBRID` is true, the dense vectorstore exactly when it is false — and
every call to `retrieve` terminates within one reinitialize-and-retry
recursion (fuel 2 never runs out, from any starting state). -/
theorem C10_retrieve_terminates (env : REnv) (st : RState) (topK : Nat)
    (alpha : Rat) (fetchK : Nat) :
    (∀ st2, initializeRetriever env = .ok st2 →
      st2.retrieverSome = env.hasHybrid ∧
      st2.vectorstoreSome = (!env.hasHybrid) ∧
      st2.retrieverSome ≠ st2.vectorstoreSome) ∧
    (retrieveAux 2 env st topK alpha fetchK).isSome = true := by
  constructor
  · intro st2 hinit
    unfold initializeRetriever at hinit
    by_cases hir : env.initRaises
    · simp [hir] at hinit
    · simp [hir] at hinit
      subst hinit
      cases h : env.hasHybrid <;> simp [h]
  · obtain ⟨hh, ir, ie, hr, mr, sr⟩ := env
    obtain ⟨rs, vs⟩ := st
    cases hh <;> cases ir <;> cases rs <;> cases vs <;> cases hr <;>
      cases mr <;> cases sr <;>
      simp [retrieveAux, initializeRetriever]

/-- Witness for C10: a hybrid-capable environment initializes to the
hybrid handle only, and `retrieve` returns within the fuel bound. -/
theorem C10_retrieve_terminates_witness :
    ((⟨true, false⟩ : RState).retrieverSome = envHyb.hasHybrid ∧
     (⟨true, false⟩ : RState).vectorstoreSome = (!envHyb.hasHybrid) ∧
     (⟨true, false⟩ : RState).retrieverSome ≠
       (⟨true, false⟩ : RState).vectorstoreSome) ∧
    (retrieveAux 2 envHyb ⟨true, false⟩ 5 0 20).isSome = true :=
  ⟨(C10_retrieve_terminates envHyb ⟨true, false⟩ 5 0 20).1 ⟨true, false⟩ rfl,
   (C10_retrieve_terminates envHyb ⟨true, false⟩ 5 0 20).2⟩

/-- C5 (confirmed): for the empty input document sequence the Context
Composer returns the fixed sentinel string, which is distinct from the
empty string. -/
theorem C5_empty_input_sentinel :
    prepareContext [] = "No relevant context found.".data ∧
    prepareContext [] ≠ ([] : List Char) :=
  ⟨rfl, by decide⟩

/-- C3 (confirmed): `generate_response` never lets an exception past its
boundary — its result status is always the success or the error tag — and
packages a raised model-call error as
`{status: error, message, answer: none, context_used: 0}`, a normal return
as `{status: success, answer, context_used: number of input documents}`. -/
theorem C3_generate_response_boundary (env : GenEnv) (q : List Char)
    (docs : List Doc) (cp : Option (List Char)) :
    ((generateResponse env q docs cp).status = RStatus.success ∨
     (generateResponse env q docs cp).status = RStatus.error) ∧
    (∀ e, env.llm cp (prepareContext docs) q = .error e →
      generateResponse env q docs cp =
        { status := .error, message := some e.msg, answer := none,
          context_used := some 0, question := some q }) ∧
    (∀ a, env.llm cp (prepareContext docs) q = .ok a →
      generateResponse env q docs cp =
        { status := .success, answer := some a,
          context_used := some docs.length, question := some q }) := by
  refine ⟨?_, ?_, ?_⟩
  · cases h : env.llm cp (prepareContext docs) q <;>
      simp [generateResponse, h]
  · intro e h
    simp [generateResponse, h]
  · intro a h
    simp [generateResponse, h]

/-- Witness for C3: a raising model call yields the error dict; a
successful one yields the success dict with the document count. -/
theorem C3_generate_response_boundary_witness :
    generateResponse genEnvErr "q".data [] none =
      { status := .error, message := some "model call failed".data,
        answer := none, context_used := some 0, question := some "q".data } ∧
    generateResponse genEnvOk "q".data [exDocC1] none =
      { status := .success, answer := some "ok".data,
        context_used := some 1, question := some "q".data } :=
  ⟨(C3_generate_response_boundary genEnvErr "q".data [] none).2.1
      ⟨"model call failed".data⟩ rfl,
   (C3_generate_response_boundary genEnvOk "q".data [exDocC1] none).2.2
      "ok".data rfl⟩

/-- C9 (confirmed): `generate_only` with the empty context string wraps it
in a single empty document, whose composed context is the rendered
empty-context block `"Document 1:\n\n"` (not a failure and not the no-docs
sentinel), and — whenever the model call returns normally — produces a
`status: success` result with `context_used = 1` and the
externally-provided-context mark. -/
theorem C9_generate_only_empty_context (genv : GenEnv) (q : List Char)
    (cp : Option (List Char)) (a : List Char) :
    prepareContext [⟨([] : List Char), []⟩] = "Document 1:\n\n".data ∧
    (genv.llm cp (prepareContext [⟨([] : List Char), []⟩]) q = .ok a →
      generateOnly genv q [] cp =
        { status := .success, answer := some a, context_used := some 1,
          question := some q, context_provided := some true }) := by
  constructor
  · rfl
  · intro h
    simp [generateOnly, generateResponse, h]

/-- Witness for C9: the empty-context composition and a successful
generation evaluated concretely. -/
theorem C9_generate_only_empty_context_witness :
    prepareContext [⟨([] : List Char), []⟩] = "Document 1:\n\n".data ∧
    generateOnly genEnvOk "q".data [] none =
      { status := .success, answer := some "ok".data, context_used := some 1,
        question := some "q".data, context_provided := some true } :=
  ⟨(C9_generate_only_empty_context genEnvOk "q".data none "ok".data).1,
   (C9_generate_only_empty_context genEnvOk "q".data none "ok".data).2 rfl⟩

/-- C4 (confirmed): `RAGService.query` short-circuits on zero retrieved
documents to the canned warning result — status `warning`, distinct from
`error`, the canned answer, `context_used = 0` — independently of the
generator environment (the Generator is not invoked); on a non-empty
retrieval it generates (with or without sources) and annotates the result
with the retrieved count and the namespace. -/
theorem C4_query_zero_docs (renv : REnv) (genv : GenEnv) (svc : Service)
    (q : List Char) (topK : Nat) (alpha : Rat) (inc : Bool)
    (cp : Option (List Char)) :
    ((retrieveTotal renv svc.rstate topK alpha 20).1 = [] →
      queryRAG renv genv svc q topK alpha inc cp = warningDict ∧
      warningDict.status = RStatus.warning ∧
      RStatus.warning ≠ RStatus.error ∧
      warningDict.answer = some cannedNoInfo ∧
      warningDict.context_used = some 0) ∧
    (∀ d ds, (retrieveTotal renv svc.rstate topK alpha 20).1 = d :: ds →
      queryRAG renv genv svc q topK alpha inc cp =
        { (if inc then generateWithSources genv q (d :: ds) cp
           else generateResponse genv q (d :: ds) cp) with
          retrieved_docs_count := some (d :: ds).length,
          search_alpha := some alpha, nspace := some svc.nspace }) := by
  constructor
  · intro h
    refine ⟨?_, rfl, by simp, rfl, rfl⟩
    simp [queryRAG, h]
  · intro d ds h
    simp [queryRAG, h]

/-- Witness for C4: the all-strategies-fail deployment returns the canned
warning result, and a one-document retrieval returns the annotated
generation result. -/
theorem C4_query_zero_docs_witness :
    queryRAG envAllFail genEnvOk ⟨"default".data, ⟨false, true⟩⟩ "q".data
      5 0 false none = warningDict ∧
    queryRAG envOneDoc genEnvOk ⟨"default".data, ⟨false, true⟩⟩ "q".data
      5 0 false none =
      { generateResponse genEnvOk "q".data [⟨"hello".data, []⟩] none with
        retrieved_docs_count := some 1, search_alpha := some 0,
        nspace := some "default".data } :=
  ⟨((C4_query_zero_docs envAllFail genEnvOk ⟨"default".data, ⟨false, true⟩⟩
      "q".data 5 0 false none).1 (by decide)).1,
   (C4_query_zero_docs envOneDoc genEnvOk ⟨"default".data, ⟨false, true⟩⟩
      "q".data 5 0 false none).2 ⟨"hello".data, []⟩ [] (by decide)⟩

/-- C8 (confirmed): `_initialize_pinecone` is idempotent — when the index
name already exists no `create_index` call is issued — and when creation is
needed but cloud or region is unresolved (falsy) it raises the
configuration `ValueError`; otherwise it creates the index with the
dimension derived from the embedding model identifier and the cosine
metric. -/
theorem C8_ensure_index (cfg : PCConfig) (existing : List (List Char)) :
    (cfg.indexName ∈ existing →
      initializePinecone cfg existing = .ok ⟨none, cfg.indexName⟩) ∧
    (cfg.indexName ∉ existing → (cfg.cloud = [] ∨ cfg.region = []) →
      initializePinecone cfg existing = .error ⟨cloudRegionErrMsg⟩) ∧
    (cfg.indexName ∉ existing → cfg.cloud ≠ [] → cfg.region ≠ [] →
      initializePinecone cfg existing =
        .ok ⟨some ⟨cfg.indexName, embedDim cfg.embModel, "cosine".data,
                   cfg.cloud, cfg.region⟩, cfg.indexName⟩) := by
  refine ⟨?_, ?_, ?_⟩
  · intro h
    unfold initializePinecone
    rw [if_pos h]
  · intro h hcr
    unfold initializePinecone
    rw [if_neg h, if_pos hcr]
  · intro h hc hr
    unfold initializePinecone
    rw [if_neg h, if_neg (by tauto)]

/-- C6 (spec-modelled, confirmed): for `chunk_overlap < chunk_size`, every
chunk produced by `process_text` has length at most `chunk_size`, and every
pair of consecutive chunks overlaps in exactly `chunk_overlap` characters —
the trailing `chunk_overlap` characters of each chunk are the leading
`chunk_overlap` characters of the next. -/
theorem C6_chunk_bounds_and_overlap (chunkSize chunkOverlap : Nat)
    (text : List Char) (md : List (List Char × List Char))
    (h : chunkOverlap < chunkSize) :
    (∀ d ∈ processText chunkSize chunkOverlap text md,
      d.page_content.length ≤ chunkSize) ∧
    List.Chain' (fun d1 d2 =>
        d1.page_content.drop (chunkSize - chunkOverlap) =
          d2.page_content.take chunkOverlap ∧
        (d1.page_content.drop (chunkSize - chunkOverlap)).length =
          chunkOverlap)
      (processText chunkSize chunkOverlap text md) := by
  constructor
  · intro d hd
    unfold processText at hd
    obtain ⟨c, hc, hcd⟩ := List.mem_map.mp hd
    rw [← hcd]
    exact splitWindow_chunk_le chunkSize chunkOverlap _ text c hc
  · unfold processText splitText
    rw [List.chain'_map]
    exact splitWindow_chain chunkSize chunkOverlap h _ text

/-- Witness for C6: chunking a five-character text with size 3 and
overlap 1. -/
theorem C6_chunk_bounds_and_overlap_witness :
    (∀ d ∈ processText 3 1 "abcde".data [],
      d.page_content.length ≤ 3) ∧
    List.Chain' (fun d1 d2 =>
        d1.page_content.drop (3 - 1) = d2.page_content.take 1 ∧
        (d1.page_content.drop (3 - 1)).length = 1)
      (processText 3 1 "abcde".data []) :=
  C6_chunk_bounds_and_overlap 3 1 "abcde".data [] (by decide)

/-- Witness for C8: creation with resolvable cloud/region and the small
model's dimension; the configuration error when cloud/region is unset; and
the no-create path when the index exists. -/
theorem C8_ensure_index_witness :
    initializePinecone cfgNew [] =
      .ok ⟨some ⟨"rag-index".data, 1536, "cosine".data, "aws".data,
                 "us-east-1".data⟩, "rag-index".data⟩ ∧
    initializePinecone ⟨"rag-index".data, "text-embedding-3-small".data,
      [], []⟩ [] = .error ⟨cloudRegionErrMsg⟩ ∧
    initializePinecone cfgNew ["rag-index".data] =
      .ok ⟨none, "rag-index".data⟩ :=
  ⟨(C8_ensure_index cfgNew []).2.2 (by decide) (by decide) (by decide),
   (C8_ensure_index ⟨"rag-index".data, "text-embedding-3-small".data,
      [], []⟩ []).2.1 (by decide) (Or.inl rfl),
   (C8_ensure_index cfgNew ["rag-index".data]).1 (by decide)⟩

end MetaMed
